import Mathlib

/-!
Shallow embedding of the message router and device-state core of the
ESP-RFID manager addon (rootfs/app/app.py) together with theorems that
settle the frozen claims about it.

Conventions of the embedding:
- JSON payload fields are modelled as Option values; a missing key is none.
  Python string truthiness (used by conditions such as "if uid and hostname")
  is the predicate truthy below: present and non-empty.
- SQLite tables are modelled as Lean lists of row structures.  INSERT is
  append; INSERT OR REPLACE on a table with a UNIQUE key replaces the unique
  matching row in place (hostname is UNIQUE in devices, (uid, device_hostname)
  is UNIQUE in users); INSERT OR IGNORE only skips a row when a uniqueness
  constraint would be violated, so on the card_registrations table, which
  declares no UNIQUE constraint besides the autoincrement id, it always
  inserts.  Timestamps are Int (epoch seconds); datetime now is passed in
  explicitly as a parameter.
- Side effects that the claims quantify over (socketio new_card_detected
  emissions, device online and offline notifications) are returned as an
  explicit trace of Emit values.  Emissions the claims never mention
  (access_event, card_scan_result, HA sensor attribute publishes, HA
  discovery) are not traced; database columns no claim reads (raw_data,
  registered_at, created_at of rows other than devices) are likewise
  omitted from the row structures.
-/

namespace ESPRFID

set_option maxRecDepth 8192

/-- Python truthiness of an optional string value: the key is present and its
value is a non-empty string. -/
def truthy : Option String → Bool
  | none => false
  | some s => s ≠ ""

/-- Helper for strContains: pat occurs as a contiguous run inside the
character list. -/
def listHasInfix (pat : List Char) : List Char → Bool
  | [] => pat.isEmpty
  | c :: rest => pat.isPrefixOf (c :: rest) || listHasInfix pat rest

/-- Python substring membership, as in the expressions quoted from the code
such as checking whether the topic contains a fragment. -/
def strContains (s pat : String) : Bool :=
  listHasInfix pat.toList s.toList

/-- Python startswith on strings. -/
def strStartsWith (s pre : String) : Bool :=
  pre.toList.isPrefixOf s.toList

/-- Python endswith on strings. -/
def strEndsWith (s suf : String) : Bool :=
  suf.toList.reverse.isPrefixOf s.toList.reverse

/-- Remove the first n characters, as the Python slice from index n. -/
def strDrop (s : String) (n : Nat) : String :=
  String.mk (s.toList.drop n)

/-- Remove the last n characters, as the Python slice up to index minus
n. -/
def strDropRight (s : String) (n : Nat) : String :=
  String.mk (s.toList.take (s.toList.length - n))

/-- Helper for splitSlash: split a character list on a separator; the
result is always non-empty. -/
def splitChar (sep : Char) : List Char → List (List Char)
  | [] => [[]]
  | c :: rest =>
    match splitChar sep rest with
    | [] => [[]]
    | g :: gs => if c = sep then [] :: g :: gs else (c :: g) :: gs

/-- Python split on the slash separator, as used on topics: every maximal
separator-free run becomes one part, empty runs included. -/
def splitSlash (s : String) : List String :=
  (splitChar (Char.ofNat 47) s.toList).map String.mk

/-- The JSON payload keys that the router and the handlers read.  Field
names follow the JSON keys; the key named type in the source is modelled by
the field msgType because the two are used interchangeably below. -/
structure Payload where
  hostname : Option String := none
  ip : Option String := none
  msgType : Option String := none
  cmd : Option String := none
  uid : Option String := none
  username : Option String := none
  access : Option String := none
  doorName : Option String := none
  isKnown : Option String := none
  user : Option String := none
  acctype : Option Int := none
  validsince : Option Int := none
  validuntil : Option Int := none
  src : Option String := none
  desc : Option String := none
  data : Option String := none
  deriving Repr, DecidableEq

/-- The kind-specific handlers that on_mqtt_message can invoke. -/
inductive HKind where
  | tagScan
  | boot
  | heartbeat
  | access
  | genericEvent
  | userFileSync
  | logScan
  | cardScan
  deriving Repr, DecidableEq

/-- Modelled from the spec: the priority-ordered message-kind classifier of
section 4.1, first match wins, none means unrouted.  This is the spec-side
definition that the code-side handler dispatch is compared against. -/
def specKind (topic : String) (p : Payload) : Option HKind :=
  let msgType := p.msgType.getD ""
  let cmd := p.cmd.getD ""
  if strContains topic "/tag" then some HKind.tagScan
  else if msgType = "boot" then some HKind.boot
  else if msgType = "heartbeat" then some HKind.heartbeat
  else if msgType = "access" then some HKind.access
  else if msgType = "INFO" ∨ msgType = "WARN" ∨ msgType = "ERRO" then some HKind.genericEvent
  else if cmd = "userfile" then some HKind.userFileSync
  else if cmd = "log" then some HKind.logScan
  else if truthy p.uid ∧ msgType = "" ∧ cmd = "" then some HKind.cardScan
  else none

/-- The handler invocations performed by the decoded-message part of
on_mqtt_message (app.py lines 313 to 337), in order: the if/elif chain picks
at most one handler, and afterwards a separate check invokes the log handler
again whenever the topic contains the fragment cmd and the payload carries
cmd equal to log. -/
def invokedHandlers (topic : String) (p : Payload) : List HKind :=
  let msgType := p.msgType.getD ""
  let cmd := p.cmd.getD ""
  let chain :=
    if strContains topic "/tag" then [HKind.tagScan]
    else if msgType = "boot" then [HKind.boot]
    else if msgType = "heartbeat" then [HKind.heartbeat]
    else if msgType = "access" then [HKind.access]
    else if msgType = "INFO" ∨ msgType = "WARN" ∨ msgType = "ERRO" then [HKind.genericEvent]
    else if cmd = "userfile" then [HKind.userFileSync]
    else if cmd = "log" then [HKind.logScan]
    else if truthy p.uid ∧ msgType = "" ∧ cmd = "" then [HKind.cardScan]
    else []
  chain ++ (if strContains topic "cmd" ∧ p.cmd = some "log" then [HKind.logScan] else [])

/-- Result of the topic triage at the top of on_mqtt_message: either the
unlock handler is called for a hostname, or the message is dropped inside
the button branch, or the code falls through to JSON decoding of the
payload. -/
inductive Route where
  | unlock (hostname : String)
  | droppedButton
  | decodeJson
  deriving Repr, DecidableEq

/-- The button-command triage of on_mqtt_message (app.py lines 284 to 292):
the branch is taken when the topic contains the fragment /unlock/cmd and
starts with homeassistant/button/; inside it the third topic segment must
start with esp_rfid_ and end with _unlock, in which case the unlock handler
runs on the segment with those affixes removed, and otherwise the message is
dropped.  Any topic that does not enter the branch proceeds to JSON
decoding. -/
def routeTopic (topic : String) : Route :=
  if strContains topic "/unlock/cmd" ∧ strStartsWith topic "homeassistant/button/" then
    let parts := splitSlash topic
    if parts.length ≥ 3 then
      let buttonId := parts.getD 2 ""
      if strStartsWith buttonId "esp_rfid_" ∧ strEndsWith buttonId "_unlock" then
        Route.unlock (strDropRight (strDrop buttonId 9) 7)
      else Route.droppedButton
    else Route.droppedButton
  else Route.decodeJson

/-- The command topic that send_ha_discovery configures for the unlock
button of a device (app.py line 869) and that on_mqtt_connect subscribes
to: homeassistant/button/esp_rfid_HOSTNAME_unlock/cmd. -/
def buttonCommandTopic (hostname : String) : String :=
  "homeassistant/button/esp_rfid_" ++ hostname ++ "_unlock/cmd"

/-- A row of the devices table.  Schema (init_database, app.py lines 73 to
83): hostname is UNIQUE, status defaults to offline, door_names defaults to
the two-character JSON text for an empty array, created_at defaults to the
current time.  The autoincrement id is not modelled; rows are addressed by
their unique hostname. -/
structure DeviceRow where
  hostname : String
  ip_address : String
  last_seen : Int
  status : String
  door_names : String
  created_at : Int
  deriving Repr, DecidableEq

/-- A row of the users table; (uid, device_hostname) is UNIQUE. -/
structure UserRow where
  uid : String
  username : String
  device_hostname : String
  acctype : Int
  valid_since : Int
  valid_until : Int
  deriving Repr, DecidableEq

/-- A row of the access_logs table (raw_data and timestamp omitted; no
claim reads them). -/
structure AccessLogRow where
  device_hostname : String
  uid : String
  username : String
  access_type : String
  is_known : Bool
  door_name : String
  deriving Repr, DecidableEq

/-- A row of the events table (the raw JSON data column is omitted; no
claim reads it).  log_event receives the hostname as the Python value of
payload.get, which can be missing, hence the Option. -/
structure EventRow where
  device_hostname : Option String
  event_type : String
  source : String
  description : String
  deriving Repr, DecidableEq

/-- A row of the card_registrations table.  The schema (init_database,
app.py lines 133 to 141) declares an autoincrement id, uid and
device_hostname both NOT NULL, and status defaulting to pending; it
declares no UNIQUE constraint on (uid, device_hostname).  With no
deletions modelled, the autoincrement id of a fresh row is the current row
count plus one. -/
structure CardRegRow where
  id : Nat
  uid : String
  device_hostname : String
  status : String
  deriving Repr, DecidableEq

/-- The in-memory entry of connected_devices for one hostname. -/
structure ConnInfo where
  ip_address : String
  last_seen : Int
  status : String
  deriving Repr, DecidableEq

/-- Notifications that the claims quantify over: the socketio
new_card_detected emission, and the back-online and offline device
notifications (modelling the log line plus HA state publishes emitted on
those transitions). -/
inductive Emit where
  | newCardDetected (uid hostname : String)
  | deviceBackOnline (hostname : String)
  | deviceOffline (hostname : String)
  deriving Repr, DecidableEq

/-- Number of new_card_detected notifications in a trace. -/
def countNewCard (es : List Emit) : Nat :=
  (es.filter fun e => match e with
    | Emit.newCardDetected _ _ => true
    | _ => false).length

/-- The mutable state of the manager process: the five database tables the
core touches, the in-memory connected_devices map (an association list in
insertion order, as a Python dict iterates), and the process-wide
card_detection_active flag. -/
structure ManagerState where
  devices : List DeviceRow
  users : List UserRow
  accessLogs : List AccessLogRow
  events : List EventRow
  cardRegs : List CardRegRow
  connected : List (String × ConnInfo)
  detectionActive : Bool
  deriving Repr, DecidableEq

/-- The INSERT OR REPLACE of update_device_status (app.py lines 366 to
369): hostname is UNIQUE, so the statement replaces the existing row for
that hostname (there is at most one) or appends a fresh one.  Columns not
named in the statement take their schema defaults: door_names becomes the
empty-array text and created_at the current time. -/
def upsertDeviceRow (db : List DeviceRow) (h ip : String) (now : Int) : List DeviceRow :=
  match db with
  | [] => [⟨h, ip, now, "online", "[]", now⟩]
  | r :: rs =>
    if r.hostname = h then ⟨h, ip, now, "online", "[]", now⟩ :: rs
    else r :: upsertDeviceRow rs h ip now

/-- Python dict assignment on connected_devices: update the entry in place
if the key exists, otherwise append it. -/
def setConnected (m : List (String × ConnInfo)) (h : String) (v : ConnInfo) :
    List (String × ConnInfo) :=
  match m with
  | [] => [(h, v)]
  | e :: es => if e.1 = h then (h, v) :: es else e :: setConnected es h v

/-- The was_offline computation at the top of update_device_status (app.py
lines 351 to 362): read the status from the in-memory map if the hostname
is known there, otherwise from the database row; an unknown hostname counts
as not offline. -/
def wasOffline (st : ManagerState) (h : String) : Bool :=
  match st.connected.find? (fun e => decide (e.1 = h)) with
  | some e => decide (e.2.status = "offline")
  | none =>
    match st.devices.find? (fun r => decide (r.hostname = h)) with
    | some r => decide (r.status = "offline")
    | none => false

/-- update_device_status (app.py lines 349 to 412): compute was_offline,
replace the device row with a fresh online row, update the in-memory map,
and if the device was offline emit the back-online notification.  The
trailing send_ha_discovery call is not modelled (no claim mentions
discovery). -/
def updateDeviceStatus (st : ManagerState) (h ip : String) (now : Int) :
    ManagerState × List Emit :=
  let st' := { st with
    devices := upsertDeviceRow st.devices h ip now
    connected := setConnected st.connected h ⟨ip, now, "online"⟩ }
  (st', if wasOffline st h then [Emit.deviceBackOnline h] else [])

/-- handle_tag_message (app.py lines 556 to 634): always insert one access
log row (is_known is the comparison of username against the Unknown
sentinel); emit new_card_detected only when the username is Unknown, uid
and hostname are truthy, and card_detection_active holds.  The hostname
default here is the literal unknown. -/
def handleTagMessage (st : ManagerState) (p : Payload) : ManagerState × List Emit :=
  let hostname := p.hostname.getD "unknown"
  let uid := p.uid.getD ""
  let username := p.username.getD "Unknown"
  let access := p.access.getD "Denied"
  let doorName := p.doorName.getD hostname
  let st' := { st with accessLogs := st.accessLogs ++
    [⟨hostname, uid, username, access, username ≠ "Unknown", doorName⟩] }
  if username = "Unknown" ∧ uid ≠ "" ∧ hostname ≠ "" ∧ st.detectionActive then
    (st', [Emit.newCardDetected uid hostname])
  else
    (st', [])

/-- handle_access_message (app.py lines 426 to 498): insert one access log
row (is_known comes from the isKnown payload string compared against the
literal true); emit new_card_detected under the same detection-gated
condition as the tag handler.  Hostname and door name default to the empty
string here.  The list-join normalisation of door and access fields is not
modelled (fields are plain strings). -/
def handleAccessMessage (st : ManagerState) (p : Payload) : ManagerState × List Emit :=
  let hostname := p.hostname.getD ""
  let uid := p.uid.getD ""
  let username := p.username.getD "Unknown"
  let access := p.access.getD "Denied"
  let isKnown := p.isKnown.getD "false" = "true"
  let doorName := p.doorName.getD ""
  let st' := { st with accessLogs := st.accessLogs ++
    [⟨hostname, uid, username, access, isKnown, doorName⟩] }
  if username = "Unknown" ∧ uid ≠ "" ∧ hostname ≠ "" ∧ st.detectionActive then
    (st', [Emit.newCardDetected uid hostname])
  else
    (st', [])

/-- handle_log_message (app.py lines 636 to 711): same shape as the tag
handler but with hostname and door name defaulting to the empty string and
is_known again the comparison of username against the Unknown sentinel. -/
def handleLogMessage (st : ManagerState) (p : Payload) : ManagerState × List Emit :=
  let hostname := p.hostname.getD ""
  let uid := p.uid.getD ""
  let username := p.username.getD "Unknown"
  let access := p.access.getD "Denied"
  let doorName := p.doorName.getD ""
  let st' := { st with accessLogs := st.accessLogs ++
    [⟨hostname, uid, username, access, username ≠ "Unknown", doorName⟩] }
  if username = "Unknown" ∧ uid ≠ "" ∧ hostname ≠ "" ∧ st.detectionActive then
    (st', [Emit.newCardDetected uid hostname])
  else
    (st', [])

/-- The INSERT OR IGNORE of handle_card_scan (app.py lines 721 to 724).
The card_registrations table has no UNIQUE constraint on
(uid, device_hostname) (init_database, lines 133 to 141), its NOT NULL
columns are always supplied, and the autoincrement id never collides, so
the OR IGNORE clause has nothing to act on and the statement always
appends a fresh pending row. -/
def insertCardRegistration (regs : List CardRegRow) (uid h : String) : List CardRegRow :=
  regs ++ [⟨regs.length + 1, uid, h, "pending"⟩]

/-- handle_card_scan (app.py lines 713 to 732): when uid and hostname are
truthy, insert a card registration row and emit new_card_detected; note
that the function reads neither card_detection_active nor the users table
and writes no access log row. -/
def handleCardScan (st : ManagerState) (p : Payload) : ManagerState × List Emit :=
  let uid := p.uid.getD ""
  let hostname := p.hostname.getD ""
  if uid ≠ "" ∧ hostname ≠ "" then
    ({ st with cardRegs := insertCardRegistration st.cardRegs uid hostname },
     [Emit.newCardDetected uid hostname])
  else
    (st, [])

/-- log_event (app.py lines 734 to 742): append one events row. -/
def logEvent (st : ManagerState) (hostname : Option String)
    (eventType source description : String) : ManagerState :=
  { st with events := st.events ++ [⟨hostname, eventType, source, description⟩] }

/-- handle_boot_message (app.py lines 414 to 418): log a boot event. -/
def handleBootMessage (st : ManagerState) (p : Payload) : ManagerState × List Emit :=
  (logEvent st p.hostname "INFO" "system" "Device booted", [])

/-- handle_event_message (app.py lines 500 to 522): when the event is the
WARN from source rfid describing an unknown scanned tag, the data field is
truthy and detection is active, emit new_card_detected for the uid taken
from data up to the first space; in every case log the event. -/
def handleEventMessage (st : ManagerState) (p : Payload) : ManagerState × List Emit :=
  let hostname := p.hostname.getD ""
  let eventType := p.msgType.getD "INFO"
  let source := p.src.getD ""
  let description := p.desc.getD ""
  let data := p.data.getD ""
  let emits :=
    if eventType = "WARN" ∧ source = "rfid" ∧ description = "Unknown rfid tag is scanned"
        ∧ data ≠ "" ∧ st.detectionActive then
      let uid := if strContains data " " then (data.splitOn " ").getD 0 "" else data
      if uid ≠ "" ∧ hostname ≠ "" then [Emit.newCardDetected uid hostname] else []
    else []
  (logEvent st (some hostname) eventType source description, emits)

/-- The INSERT OR REPLACE on the users table, whose UNIQUE key is
(uid, device_hostname): replace the matching row in place or append. -/
def upsertUserRow (users : List UserRow) (row : UserRow) : List UserRow :=
  match users with
  | [] => [row]
  | u :: us =>
    if u.uid = row.uid ∧ u.device_hostname = row.device_hostname then row :: us
    else u :: upsertUserRow us row

/-- handle_userfile_message (app.py lines 524 to 554): when uid, user and
hostname are truthy, upsert the users row with acctype defaulting to 1 and
the validity bounds to 0.  Python truthiness of the numeric fields is not
re-checked because only the string fields guard the branch. -/
def handleUserfileMessage (st : ManagerState) (p : Payload) : ManagerState × List Emit :=
  let uid := p.uid.getD ""
  let username := p.user.getD ""
  let hostname := p.hostname.getD ""
  if uid ≠ "" ∧ username ≠ "" ∧ hostname ≠ "" then
    ({ st with users := upsertUserRow st.users ⟨uid, username, hostname,
        p.acctype.getD 1, p.validsince.getD 0, p.validuntil.getD 0⟩ }, [])
  else
    (st, [])

/-- Dispatch table from handler kind to handler body; the heartbeat handler
is a no-op beyond the liveness update already performed. -/
def runHandler : HKind → ManagerState → Payload → ManagerState × List Emit
  | HKind.tagScan, st, p => handleTagMessage st p
  | HKind.boot, st, p => handleBootMessage st p
  | HKind.heartbeat, st, _ => (st, [])
  | HKind.access, st, p => handleAccessMessage st p
  | HKind.genericEvent, st, p => handleEventMessage st p
  | HKind.userFileSync, st, p => handleUserfileMessage st p
  | HKind.logScan, st, p => handleLogMessage st p
  | HKind.cardScan, st, p => handleCardScan st p

/-- Hostname resolution of on_mqtt_message (app.py lines 297 to 308):
prefer the payload hostname, defaulting to the literal unknown; when it is
that literal and the topic contains a slash, take the second slash-separated
segment unless it is empty or one of the reserved words send, cmd, tag; on
success the payload is updated with the derived hostname for the later
handlers.  Returns the resolved hostname and the possibly updated
payload. -/
def resolvePayload (topic : String) (p : Payload) : String × Payload :=
  let h := p.hostname.getD "unknown"
  if h = "unknown" ∧ strContains topic "/" then
    let parts := splitSlash topic
    if parts.length ≥ 2 then
      let potential := parts.getD 1 ""
      if potential ≠ "" ∧ potential ≠ "send" ∧ potential ≠ "cmd" ∧ potential ≠ "tag" then
        (potential, { p with hostname := some potential })
      else (h, p)
    else (h, p)
  else (h, p)

/-- Run a list of handlers in order, threading the state and concatenating
the emitted notifications. -/
def runHandlers (ks : List HKind) (st : ManagerState) (p : Payload) :
    ManagerState × List Emit :=
  match ks with
  | [] => (st, [])
  | k :: rest =>
    let r := runHandler k st p
    let r' := runHandlers rest r.1 p
    (r'.1, r.2 ++ r'.2)

/-- The decoded-message path of on_mqtt_message (app.py lines 294 to 344):
resolve the hostname, refresh the device registry via update_device_status,
then run the kind-specific handlers selected by invokedHandlers on the
updated payload.  The final socketio mqtt_message broadcast is not
modelled. -/
def processDecoded (st : ManagerState) (topic : String) (p : Payload) (now : Int) :
    ManagerState × List Emit :=
  let rp := resolvePayload topic p
  let ip := p.ip.getD ""
  let u := updateDeviceStatus st rp.1 ip now
  let r := runHandlers (invokedHandlers topic rp.2) u.1 rp.2
  (r.1, u.2 ++ r.2)

/-- An outbound device command object.  The field names are the fixed
device-protocol tokens; fields a command does not carry stay none.  doorip
is filled in by send_mqtt_command. -/
structure Command where
  cmd : String
  uid : Option String := none
  user : Option String := none
  acctype : Option String := none
  validsince : Option String := none
  validuntil : Option String := none
  doorip : Option String := none
  deriving Repr, DecidableEq

/-- Outcome of one call of the MQTT client publish method: either it raises
an exception, or it returns normally carrying a result code rc (the code
logs this value with the remark that zero means success). -/
inductive PublishResult where
  | raised
  | returned (rc : Nat)
  deriving Repr, DecidableEq

/-- What one send_mqtt_command call did: the topic and command of the
single publish attempt, and the boolean handed back to the caller. -/
structure SendResult where
  topic : String
  command : Command
  ok : Bool
  deriving Repr, DecidableEq

/-- send_mqtt_command (app.py lines 744 to 770): set doorip on the command;
when the caller passed no truthy hostname, reverse-look the IP up in the
in-memory connected_devices map taking the first entry whose stored
ip_address matches; publish to the per-device command topic when the
resulting hostname is truthy and to the generic command topic otherwise;
return True when the publish call returns (its result code is only logged)
and False when it raises. -/
def sendMqttCommand (connected : List (String × ConnInfo)) (base deviceIp : String)
    (c : Command) (deviceHostname : Option String) (pub : PublishResult) : SendResult :=
  let c' := { c with doorip := some deviceIp }
  let h :=
    if truthy deviceHostname then deviceHostname
    else (connected.find? (fun e => decide (e.2.ip_address = deviceIp))).map (fun e => e.1)
  let topic :=
    if truthy h then base ++ "/" ++ h.getD "" ++ "/cmd"
    else base ++ "/cmd"
  let ok :=
    match pub with
    | PublishResult.raised => false
    | PublishResult.returned _ => true
  ⟨topic, c', ok⟩

/-- Modelled from the spec: success of a bus publish in the sense of
section 4.3 and the error taxonomy, matching the source log line that
documents result code zero as success — the publish call returned and its
result code is zero.  This is the spec-side notion that the boolean
returned by send_mqtt_command is compared against. -/
def publishSucceeded : PublishResult → Bool
  | PublishResult.returned 0 => true
  | _ => false

/-- add_user (app.py lines 772 to 783): build the adduser command with the
device-side numeric fields stringified, then send it.  The hostname
argument is omitted by the card-registration completion path, so it is
none there. -/
def addUser (connected : List (String × ConnInfo)) (base deviceIp uid username : String)
    (acctype validSince validUntil : Int) (deviceHostname : Option String)
    (pub : PublishResult) : SendResult :=
  sendMqttCommand connected base deviceIp
    { cmd := "adduser", uid := some uid, user := some username,
      acctype := some (toString acctype), validsince := some (toString validSince),
      validuntil := some (toString validUntil) }
    deviceHostname pub

/-- Outcome of the card-registration completion endpoint: the state after
the call, the publish attempts made (topic and command pairs), and either
an error with its HTTP status code or the success message. -/
structure ApiOutcome where
  state : ManagerState
  sends : List SendResult
  result : Except (Nat × String) String
  deriving Repr

/-- api_complete_card_registration (app.py lines 1560 to 1612): reject an
empty username with 400; look the registration up by id, 404 when absent;
look its device up by hostname, 404 when absent; send one adduser command
via add_user (which receives no hostname, so the topic comes from the
reverse IP lookup); if the boolean is true, upsert the users row and set
the registration status to completed, otherwise return 500 leaving both
tables untouched.  No retry happens in either case. -/
def apiCompleteCardRegistration (st : ManagerState) (base : String) (regId : Nat)
    (username : String) (acctype validSince validUntil : Int) (pub : PublishResult) :
    ApiOutcome :=
  if username = "" then ⟨st, [], Except.error (400, "Username required")⟩
  else
    match st.cardRegs.find? (fun r => decide (r.id = regId)) with
    | none => ⟨st, [], Except.error (404, "Registration not found")⟩
    | some reg =>
      match st.devices.find? (fun d => decide (d.hostname = reg.device_hostname)) with
      | none => ⟨st, [], Except.error (404, "Device not found")⟩
      | some dev =>
        let sent := addUser st.connected base dev.ip_address reg.uid username
          acctype validSince validUntil none pub
        if sent.ok then
          ⟨{ st with
              users := upsertUserRow st.users
                ⟨reg.uid, username, reg.device_hostname, acctype, validSince, validUntil⟩
              cardRegs := st.cardRegs.map (fun r =>
                if r.id = regId then { r with status := "completed" } else r) },
            [sent], Except.ok "User registered successfully"⟩
        else
          ⟨st, [sent], Except.error (500, "Failed to register user")⟩

/-- cleanup_offline_devices (app.py lines 2282 to 2340): with the cutoff
ninety seconds before now, select the online devices last seen strictly
before the cutoff, set their status to offline in one bulk update, mark
them offline in the in-memory map where present, and emit one offline
notification per affected hostname. -/
def cleanupOfflineDevices (st : ManagerState) (now : Int) : ManagerState × List Emit :=
  let stale := fun (r : DeviceRow) => r.last_seen < now - 90 ∧ r.status = "online"
  let offlineHosts := (st.devices.filter (fun r => decide (stale r))).map (fun r => r.hostname)
  let st' := { st with
    devices := st.devices.map (fun r =>
      if stale r then { r with status := "offline" } else r)
    connected := st.connected.map (fun e =>
      if offlineHosts.contains e.1 then (e.1, { e.2 with status := "offline" }) else e) }
  (st', offlineHosts.map Emit.deviceOffline)

/-- Database lookup of the unique device row of a hostname. -/
def findDevice (db : List DeviceRow) (h : String) : Option DeviceRow :=
  db.find? (fun r => decide (r.hostname = h))

/-- The fresh row that the per-message upsert writes for a hostname. -/
def freshOnlineRow (h ip : String) (now : Int) : DeviceRow :=
  ⟨h, ip, now, "online", "[]", now⟩

/-- Number of pending registration rows for a given card and device. -/
def pendingRegCount (regs : List CardRegRow) (uid h : String) : Nat :=
  (regs.filter (fun r =>
    decide (r.uid = uid ∧ r.device_hostname = h ∧ r.status = "pending"))).length

/-- A state with empty tables, empty in-memory map and detection off. -/
def emptyState : ManagerState := ⟨[], [], [], [], [], [], false⟩

/-- The empty state with card detection switched on. -/
def detectState : ManagerState := { emptyState with detectionActive := true }

/-- An unsolicited card-scan payload: a uid, a hostname, and neither type
nor cmd. -/
def pScan : Payload := { uid := some "AB12", hostname := some "door1" }

/-- A payload carrying cmd log and nothing else. -/
def pLogCmd : Payload := { cmd := some "log" }

/-- A state holding one online device row and nothing else. -/
def singleDeviceState (h ip : String) (t0 ca : Int) (dn : String) : ManagerState :=
  ⟨[⟨h, ip, t0, "online", dn, ca⟩], [], [], [], [], [], false⟩

/-- A state with one device and one pending card registration for it,
used to exercise the registration-completion endpoint. -/
def regState : ManagerState :=
  ⟨[⟨"door1", "10.0.0.5", 0, "online", "[]", 0⟩], [], [], [],
   [⟨1, "AB12", "door1", "pending"⟩], [("door1", ⟨"10.0.0.5", 0, "online"⟩)], false⟩

theorem find?_upsertDeviceRow (db : List DeviceRow) (h ip : String) (now : Int) :
    findDevice (upsertDeviceRow db h ip now) h = some (freshOnlineRow h ip now) := by
  induction db with
  | nil => simp [upsertDeviceRow, findDevice, freshOnlineRow, List.find?]
  | cons r rs ih =>
    by_cases hr : r.hostname = h
    · simp [upsertDeviceRow, hr, findDevice, freshOnlineRow, List.find?]
    · simpa [upsertDeviceRow, hr, findDevice, List.find?] using ih

theorem filter_upsertDeviceRow (db : List DeviceRow) (h ip : String) (now : Int) :
    (upsertDeviceRow db h ip now).filter (fun r => decide (r.hostname ≠ h)) =
      db.filter (fun r => decide (r.hostname ≠ h)) := by
  induction db with
  | nil => simp [upsertDeviceRow]
  | cons r rs ih =>
    simp only [decide_not] at ih
    by_cases hr : r.hostname = h
    · simp [upsertDeviceRow, hr, decide_not]
    · simp [upsertDeviceRow, hr, decide_not, ih]

theorem mem_upsertDeviceRow (db : List DeviceRow) (h ip : String) (now : Int)
    (r : DeviceRow) (hm : r ∈ upsertDeviceRow db h ip now) :
    r = freshOnlineRow h ip now ∨ r ∈ db := by
  induction db with
  | nil => simpa [upsertDeviceRow, freshOnlineRow] using hm
  | cons d ds ih =>
    by_cases hd : d.hostname = h
    · rcases (by simpa [upsertDeviceRow, hd] using hm) with h1 | h1
      · exact Or.inl (by simp [freshOnlineRow, h1])
      · exact Or.inr (List.mem_cons_of_mem _ h1)
    · rcases (by simpa [upsertDeviceRow, hd] using hm) with h1 | h1
      · exact Or.inr (by simp [h1])
      · rcases ih h1 with h2 | h2
        · exact Or.inl h2
        · exact Or.inr (List.mem_cons_of_mem _ h2)

theorem runHandler_devices (k : HKind) (st : ManagerState) (p : Payload) :
    ((runHandler k st p).1).devices = st.devices := by
  cases k <;>
    simp only [runHandler, handleTagMessage, handleBootMessage, handleAccessMessage,
      handleEventMessage, handleUserfileMessage, handleLogMessage, handleCardScan,
      logEvent] <;>
    split <;> rfl

theorem runHandlers_devices (ks : List HKind) (st : ManagerState) (p : Payload) :
    ((runHandlers ks st p).1).devices = st.devices := by
  induction ks generalizing st with
  | nil => rfl
  | cons k rest ih =>
    simp only [runHandlers]
    rw [ih, runHandler_devices]

theorem find?_completeReg (l : List CardRegRow) (regId : Nat) (reg : CardRegRow)
    (h : l.find? (fun r => decide (r.id = regId)) = some reg) :
    (l.map (fun r => if r.id = regId then { r with status := "completed" } else r)).find?
        (fun r => decide (r.id = regId)) = some { reg with status := "completed" } := by
  induction l with
  | nil => simp at h
  | cons a as ih =>
    by_cases ha : a.id = regId
    · have : a = reg := by simpa [List.find?, ha] using h
      subst this
      simp [List.find?, ha]
    · have h' : as.find? (fun r => decide (r.id = regId)) = some reg := by
        simpa [List.find?, ha] using h
      simpa [List.find?, ha] using ih h'

/-- C2: the claim reads: for every uid U and hostname H, delivering two
unsolicited-card-scan messages for (U, H) while detection is active leaves
exactly one pending CardRegistration row for (U, H).  The code disagrees:
the card_registrations table declares no UNIQUE constraint on
(uid, device_hostname), so the INSERT OR IGNORE of handle_card_scan has no
conflict to ignore and both messages insert; after two deliveries of the
scan for (AB12, door1) the table holds two pending rows for that pair. -/
theorem C2_duplicate_pending_rows :
    pendingRegCount
      ((processDecoded
        ((processDecoded detectState "/esprfid/door1/send" pScan 100).1)
        "/esprfid/door1/send" pScan 101).1).cardRegs "AB12" "door1" = 2 := by
  decide

/-- C3: the claim reads: messages on hub button-command topics
homeassistant/button/esp_rfid_HOSTNAME_unlock/cmd are routed to the unlock
handler without JSON decoding.  The code disagrees: the branch guard asks
for the fragment /unlock/cmd inside the topic, but the topics the code
itself configures and subscribes for the unlock button end in _unlock/cmd,
which never contains that fragment, so such messages fall through to JSON
decoding; only the degenerate button id unlock enters the branch, and it is
then dropped for not matching the esp_rfid_ pattern. -/
theorem C3_button_topic_not_routed :
    buttonCommandTopic "door1" = "homeassistant/button/esp_rfid_door1_unlock/cmd" ∧
    routeTopic (buttonCommandTopic "door1") = Route.decodeJson ∧
    routeTopic "homeassistant/button/unlock/cmd" = Route.droppedButton := by
  decide

/-- C4 counterexample: the claim says exactly one kind-specific handler
runs per decoded message; on a command topic carrying cmd log the log
handler runs twice. -/
theorem C4_counterexample :
    invokedHandlers "/esprfid/door1/cmd" pLogCmd = [HKind.logScan, HKind.logScan] ∧
    (invokedHandlers "/esprfid/door1/cmd" pLogCmd).length ≠ 1 := by
  decide

/-- C4 amended: classification follows the fixed first-match-wins priority
order of the spec, but the handler count is one per message only up to the
extra dispatch: the invoked handlers are exactly the chain choice followed
by a second log-handler invocation when the topic contains the fragment cmd
and the payload carries cmd log. -/
theorem C4_amended_dispatch (topic : String) (p : Payload) :
    invokedHandlers topic p = (specKind topic p).toList ++
      (if strContains topic "cmd" ∧ p.cmd = some "log" then [HKind.logScan] else []) := by
  simp only [invokedHandlers, specKind]
  split_ifs <;> rfl

/-- C10 counterexample: the claim says the boolean handed to the caller is
true exactly when the publish succeeded; a publish that returns result code
four signals failure (the code logs result code zero as success) yet the
function returns true. -/
theorem C10_counterexample :
    (sendMqttCommand [] "/esprfid" "10.0.0.5" { cmd := "opendoor" } none
      (PublishResult.returned 4)).ok = true ∧
    publishSucceeded (PublishResult.returned 4) = false := by
  decide

/-- C10 amended: the boolean returned by send_mqtt_command is true exactly
when the publish call returned without raising, whatever result code it
returned; only a raised exception yields false, and the single publish
attempt of the call is never retried. -/
theorem C10_amended_boolean (connected : List (String × ConnInfo)) (base ip : String)
    (c : Command) (h0 : Option String) (pub : PublishResult) :
    (sendMqttCommand connected base ip c h0 pub).ok = true ↔ pub ≠ PublishResult.raised := by
  cases pub <;> simp [sendMqttCommand]

/-- C5: for every decoded message, whatever its kind, the device row of the
resolved hostname in the post-state is the fresh online row with last_seen
equal to the receipt time and ip_address from the payload, created if it
was absent: the per-message registry refresh runs before the kind-specific
handlers (it is the first step of processDecoded) and no handler modifies
the devices table. -/
theorem C5_liveness_refresh (st : ManagerState) (topic : String) (p : Payload) (now : Int) :
    findDevice ((processDecoded st topic p now).1).devices (resolvePayload topic p).1 =
      some (freshOnlineRow (resolvePayload topic p).1 (p.ip.getD "") now) := by
  simp only [processDecoded]
  rw [runHandlers_devices]
  exact find?_upsertDeviceRow ..

/-- C7 counterexample: the claim says door_names is unchanged by the
per-message upsert; starting from a device whose door_names is the text
custom, one upsert for the same hostname leaves a devices table whose
door_names column no longer reads custom (the INSERT OR REPLACE reset
it to the schema default). -/
theorem C7_counterexample :
    ¬ (((updateDeviceStatus (singleDeviceState "door1" "10.0.0.5" 5 5 "custom")
        "door1" "10.0.0.5" 6).1.devices.map (fun r => r.door_names)) = ["custom"]) := by
  decide

/-- C7 amended: the per-message upsert replaces the entire device row: the
row stored for the hostname afterwards is exactly the fresh online row
(status online, last_seen and created_at the receipt time, ip_address the
payload ip or empty when absent, door_names reset to the empty-array
default), while rows of every other hostname are unchanged. -/
theorem C7_amended_full_replace (st : ManagerState) (h ip : String) (now : Int) :
    findDevice ((updateDeviceStatus st h ip now).1).devices h = some (freshOnlineRow h ip now) ∧
    ((updateDeviceStatus st h ip now).1).devices.filter (fun r => decide (r.hostname ≠ h)) =
      st.devices.filter (fun r => decide (r.hostname ≠ h)) := by
  exact ⟨find?_upsertDeviceRow .., filter_upsertDeviceRow ..⟩

/-- C6: with the ninety-second timeout, a sweeper tick eighty-nine seconds
after the last_seen of an online device leaves it online and emits nothing,
a tick ninety-one seconds after flips it offline and emits exactly its
offline notification; and message processing never writes an offline row,
so the sweeper is the only time-driven online-to-offline transition. -/
theorem C6_sweeper_boundary (t0 ca : Int) (h ip dn : String) :
    ((cleanupOfflineDevices (singleDeviceState h ip t0 ca dn) (t0 + 89)).1.devices =
        [⟨h, ip, t0, "online", dn, ca⟩] ∧
      (cleanupOfflineDevices (singleDeviceState h ip t0 ca dn) (t0 + 89)).2 = []) ∧
    ((cleanupOfflineDevices (singleDeviceState h ip t0 ca dn) (t0 + 91)).1.devices =
        [⟨h, ip, t0, "offline", dn, ca⟩] ∧
      (cleanupOfflineDevices (singleDeviceState h ip t0 ca dn) (t0 + 91)).2 =
        [Emit.deviceOffline h]) ∧
    (∀ (st : ManagerState) (topic : String) (p : Payload) (now : Int) (r : DeviceRow),
      r ∈ ((processDecoded st topic p now).1).devices →
      r.status = "online" ∨ r ∈ st.devices) := by
  have h89 : ¬ (t0 < t0 + 89 - 90) := by omega
  have h91 : t0 < t0 + 91 - 90 := by omega
  refine ⟨⟨?_, ?_⟩, ⟨?_, ?_⟩, ?_⟩
  · simp [cleanupOfflineDevices, singleDeviceState, h89]
  · simp [cleanupOfflineDevices, singleDeviceState, h89]
  · simp [cleanupOfflineDevices, singleDeviceState, h91]
  · simp [cleanupOfflineDevices, singleDeviceState, h91]
  · intro st topic p now r hr
    have hd : ((processDecoded st topic p now).1).devices =
        upsertDeviceRow st.devices (resolvePayload topic p).1 (p.ip.getD "") now := by
      simp only [processDecoded]
      rw [runHandlers_devices]
      rfl
    rw [hd] at hr
    rcases mem_upsertDeviceRow _ _ _ _ _ hr with h1 | h1
    · exact Or.inl (by simp [h1, freshOnlineRow])
    · exact Or.inr h1

/-- C6 witness: the third conjunct of the sweeper theorem applied to a
concrete boot-style message on a fresh state, its membership hypothesis
discharged by evaluation. -/
theorem C6_sweeper_boundary_witness :
    freshOnlineRow "door1" "10.0.0.5" 100 ∈
      ((processDecoded emptyState "/esprfid/door1/send"
        { hostname := some "door1", ip := some "10.0.0.5" } 100).1).devices ∧
    ((freshOnlineRow "door1" "10.0.0.5" 100).status = "online" ∨
      freshOnlineRow "door1" "10.0.0.5" 100 ∈ emptyState.devices) :=
  ⟨by decide,
   (C6_sweeper_boundary 0 0 "door1" "10.0.0.5" "x").2.2 emptyState "/esprfid/door1/send"
     { hostname := some "door1", ip := some "10.0.0.5" } 100
     (freshOnlineRow "door1" "10.0.0.5" 100) (by decide)⟩

/-- C1 counterexample: the claim says an unknown-card scan handled while
the detection flag is false produces zero CardRegistration rows and zero
new-card notifications; delivering the unsolicited card-scan message for
uid AB12 on door1 with the flag false inserts a registration row and emits
the notification anyway (handle_card_scan never consults the flag). -/
theorem C1_counterexample :
    ¬ ((processDecoded emptyState "/esprfid/door1/send" pScan 100).1.cardRegs = [] ∧
       countNewCard (processDecoded emptyState "/esprfid/door1/send" pScan 100).2 = 0) := by
  decide

/-- C1 amended: for a scan whose resolved username is the Unknown sentinel
with truthy uid and hostname: the tag-scan, access and log-scan handlers
each append exactly one access-log row, leave card_registrations untouched,
and emit the new-card notification exactly when the detection flag is true;
the unsolicited-card-scan handler appends no access-log row and,
irrespective of the flag, appends exactly one pending registration row and
emits exactly one new-card notification. -/
theorem C1_amended_scan_effects (st : ManagerState) (p : Payload)
    (hu : p.username.getD "Unknown" = "Unknown")
    (hid : p.uid.getD "" ≠ "")
    (hh : p.hostname.getD "" ≠ "") :
    ((handleTagMessage st p).1.accessLogs.length = st.accessLogs.length + 1 ∧
     (handleTagMessage st p).1.cardRegs = st.cardRegs ∧
     countNewCard (handleTagMessage st p).2 = (if st.detectionActive then 1 else 0)) ∧
    ((handleAccessMessage st p).1.accessLogs.length = st.accessLogs.length + 1 ∧
     (handleAccessMessage st p).1.cardRegs = st.cardRegs ∧
     countNewCard (handleAccessMessage st p).2 = (if st.detectionActive then 1 else 0)) ∧
    ((handleLogMessage st p).1.accessLogs.length = st.accessLogs.length + 1 ∧
     (handleLogMessage st p).1.cardRegs = st.cardRegs ∧
     countNewCard (handleLogMessage st p).2 = (if st.detectionActive then 1 else 0)) ∧
    ((handleCardScan st p).1.accessLogs = st.accessLogs ∧
     (handleCardScan st p).1.cardRegs = st.cardRegs ++
       [⟨st.cardRegs.length + 1, p.uid.getD "", p.hostname.getD "", "pending"⟩] ∧
     countNewCard (handleCardScan st p).2 = 1) := by
  obtain ⟨uv, hpu⟩ : ∃ v, p.uid = some v := by
    cases hc : p.uid
    · rw [hc] at hid; simp at hid
    · exact ⟨_, rfl⟩
  obtain ⟨hv, hph⟩ : ∃ v, p.hostname = some v := by
    cases hc : p.hostname
    · rw [hc] at hh; simp at hh
    · exact ⟨_, rfl⟩
  have huv : uv ≠ "" := by rw [hpu] at hid; simpa using hid
  have hhv : hv ≠ "" := by rw [hph] at hh; simpa using hh
  have hun : p.username = none ∨ p.username = some "Unknown" := by
    cases hc : p.username
    · exact Or.inl rfl
    · rw [hc] at hu; simp at hu; exact Or.inr (by rw [hu])
  rcases hun with hun | hun <;> cases hda : st.detectionActive <;>
    simp [handleTagMessage, handleAccessMessage, handleLogMessage, handleCardScan,
      insertCardRegistration, countNewCard, hpu, hph, hun, hda, huv, hhv]

/-- C1 witness: the amended scan-effects theorem applied to the concrete
unknown-card payload on the detection-active state, every hypothesis
discharged by evaluation. -/
theorem C1_amended_scan_effects_witness :
    (pScan.username.getD "Unknown" = "Unknown" ∧ pScan.uid.getD "" ≠ "" ∧
      pScan.hostname.getD "" ≠ "") ∧
    (((handleTagMessage detectState pScan).1.accessLogs.length =
        detectState.accessLogs.length + 1 ∧
      (handleTagMessage detectState pScan).1.cardRegs = detectState.cardRegs ∧
      countNewCard (handleTagMessage detectState pScan).2 =
        (if detectState.detectionActive then 1 else 0)) ∧
     ((handleAccessMessage detectState pScan).1.accessLogs.length =
        detectState.accessLogs.length + 1 ∧
      (handleAccessMessage detectState pScan).1.cardRegs = detectState.cardRegs ∧
      countNewCard (handleAccessMessage detectState pScan).2 =
        (if detectState.detectionActive then 1 else 0)) ∧
     ((handleLogMessage detectState pScan).1.accessLogs.length =
        detectState.accessLogs.length + 1 ∧
      (handleLogMessage detectState pScan).1.cardRegs = detectState.cardRegs ∧
      countNewCard (handleLogMessage detectState pScan).2 =
        (if detectState.detectionActive then 1 else 0)) ∧
     ((handleCardScan detectState pScan).1.accessLogs = detectState.accessLogs ∧
      (handleCardScan detectState pScan).1.cardRegs = detectState.cardRegs ++
        [⟨detectState.cardRegs.length + 1, pScan.uid.getD "", pScan.hostname.getD "",
          "pending"⟩] ∧
      countNewCard (handleCardScan detectState pScan).2 = 1)) :=
  ⟨⟨by decide, by decide, by decide⟩,
   C1_amended_scan_effects detectState pScan (by decide) (by decide) (by decide)⟩

/-- C8: completing a card registration issues exactly one adduser command
built from the registration and the supplied fields, addressed with the
doorip of the bound device; when the publish returns, the users row is
upserted and the registration status becomes completed with the success
result; when the publish raises, the endpoint reports the 500 error and
the state, users and registrations included, is unchanged, with no further
send. -/
theorem C8_complete_registration (st : ManagerState) (base username : String)
    (regId : Nat) (acctype vs vu : Int) (pub : PublishResult)
    (reg : CardRegRow) (dev : DeviceRow)
    (hu : username ≠ "")
    (hreg : st.cardRegs.find? (fun r => decide (r.id = regId)) = some reg)
    (hdev : st.devices.find? (fun d => decide (d.hostname = reg.device_hostname)) = some dev) :
    (apiCompleteCardRegistration st base regId username acctype vs vu pub).sends =
      [addUser st.connected base dev.ip_address reg.uid username acctype vs vu none pub] ∧
    (pub = PublishResult.raised →
      (apiCompleteCardRegistration st base regId username acctype vs vu pub).state = st ∧
      (apiCompleteCardRegistration st base regId username acctype vs vu pub).result =
        Except.error (500, "Failed to register user")) ∧
    (pub ≠ PublishResult.raised →
      (apiCompleteCardRegistration st base regId username acctype vs vu pub).state.users =
        upsertUserRow st.users ⟨reg.uid, username, reg.device_hostname, acctype, vs, vu⟩ ∧
      (apiCompleteCardRegistration st base regId username acctype vs vu pub).state.cardRegs.find?
          (fun r => decide (r.id = regId)) = some { reg with status := "completed" } ∧
      (apiCompleteCardRegistration st base regId username acctype vs vu pub).result =
        Except.ok "User registered successfully") := by
  cases pub with
  | raised =>
    refine ⟨?_, fun _ => ⟨?_, ?_⟩, fun hc => absurd rfl hc⟩ <;>
      simp [apiCompleteCardRegistration, hu, hreg, hdev, addUser, sendMqttCommand]
  | returned rc =>
    have hst : (apiCompleteCardRegistration st base regId username acctype vs vu
        (PublishResult.returned rc)).state.cardRegs =
        st.cardRegs.map (fun r => if r.id = regId then { r with status := "completed" } else r) := by
      simp [apiCompleteCardRegistration, hu, hreg, hdev, addUser, sendMqttCommand]
    refine ⟨?_, fun hc => absurd hc (by simp), fun _ => ⟨?_, ?_, ?_⟩⟩
    · simp [apiCompleteCardRegistration, hu, hreg, hdev, addUser, sendMqttCommand]
    · simp [apiCompleteCardRegistration, hu, hreg, hdev, addUser, sendMqttCommand]
    · rw [hst]
      exact find?_completeReg _ _ _ hreg
    · simp [apiCompleteCardRegistration, hu, hreg, hdev, addUser, sendMqttCommand]

/-- C8 witness: the completion theorem applied to the concrete state with
one pending registration and its device, under a successful publish, every
hypothesis discharged by evaluation. -/
theorem C8_complete_registration_witness :
    (("alice" : String) ≠ "" ∧
     regState.cardRegs.find? (fun r => decide (r.id = 1)) =
       some ⟨1, "AB12", "door1", "pending"⟩ ∧
     regState.devices.find? (fun d => decide (d.hostname = "door1")) =
       some ⟨"door1", "10.0.0.5", 0, "online", "[]", 0⟩) ∧
    ((apiCompleteCardRegistration regState "/esprfid" 1 "alice" 1 0 0
        (PublishResult.returned 0)).sends =
      [addUser regState.connected "/esprfid" "10.0.0.5" "AB12" "alice" 1 0 0 none
        (PublishResult.returned 0)] ∧
     (PublishResult.returned 0 = PublishResult.raised →
       (apiCompleteCardRegistration regState "/esprfid" 1 "alice" 1 0 0
         (PublishResult.returned 0)).state = regState ∧
       (apiCompleteCardRegistration regState "/esprfid" 1 "alice" 1 0 0
         (PublishResult.returned 0)).result =
         Except.error (500, "Failed to register user")) ∧
     (PublishResult.returned 0 ≠ PublishResult.raised →
       (apiCompleteCardRegistration regState "/esprfid" 1 "alice" 1 0 0
         (PublishResult.returned 0)).state.users =
         upsertUserRow regState.users ⟨"AB12", "alice", "door1", 1, 0, 0⟩ ∧
       (apiCompleteCardRegistration regState "/esprfid" 1 "alice" 1 0 0
         (PublishResult.returned 0)).state.cardRegs.find?
           (fun r => decide (r.id = 1)) = some ⟨1, "AB12", "door1", "completed"⟩ ∧
       (apiCompleteCardRegistration regState "/esprfid" 1 "alice" 1 0 0
         (PublishResult.returned 0)).result = Except.ok "User registered successfully")) :=
  ⟨⟨by decide, by decide, by decide⟩,
   C8_complete_registration regState "/esprfid" "alice" 1 1 0 0 (PublishResult.returned 0)
     ⟨1, "AB12", "door1", "pending"⟩ ⟨"door1", "10.0.0.5", 0, "online", "[]", 0⟩
     (by decide) (by decide) (by decide)⟩

/-- C9: every sent command carries doorip equal to the target IP; a
caller-supplied hostname is addressed on its per-device command topic; with
no caller hostname, when some registry entry holds the target IP the
command goes to the per-device topic of such an entry, and when no entry
holds it the command goes to the generic command topic.  Registry hostnames
are assumed non-empty. -/
theorem C9_command_routing (connected : List (String × ConnInfo)) (base ip : String)
    (c : Command) (h0 : Option String) (pub : PublishResult)
    (hconn : ∀ e ∈ connected, e.1 ≠ "") :
    (sendMqttCommand connected base ip c h0 pub).command.doorip = some ip ∧
    (∀ h, h0 = some h → h ≠ "" →
      (sendMqttCommand connected base ip c h0 pub).topic = base ++ "/" ++ h ++ "/cmd") ∧
    (truthy h0 = false →
      ((∃ e ∈ connected, e.2.ip_address = ip) →
        ∃ e ∈ connected, e.2.ip_address = ip ∧
          (sendMqttCommand connected base ip c h0 pub).topic = base ++ "/" ++ e.1 ++ "/cmd") ∧
      ((∀ e ∈ connected, e.2.ip_address ≠ ip) →
        (sendMqttCommand connected base ip c h0 pub).topic = base ++ "/cmd")) := by
  refine ⟨rfl, ?_, ?_⟩
  · intro h hh0 hne
    subst hh0
    simp [sendMqttCommand, truthy, hne]
  · intro hf
    constructor
    · intro hex
      have hs : (connected.find? (fun e => decide (e.2.ip_address = ip))).isSome := by
        rw [List.find?_isSome]
        obtain ⟨e, he, hip⟩ := hex
        exact ⟨e, he, by simpa using hip⟩
      obtain ⟨e0, he0⟩ := Option.isSome_iff_exists.mp hs
      have hmem : e0 ∈ connected := List.mem_of_find?_eq_some he0
      have hip0 : e0.2.ip_address = ip := by
        have := List.find?_some he0
        simpa using this
      have hne : e0.1 ≠ "" := hconn e0 hmem
      refine ⟨e0, hmem, hip0, ?_⟩
      simp only [sendMqttCommand, hf, Bool.false_eq_true, if_false, he0, Option.map_some]
      simp [truthy, hne]
    · intro hnone
      have hn : connected.find? (fun e => decide (e.2.ip_address = ip)) = none := by
        rw [List.find?_eq_none]
        intro e he
        simpa using hnone e he
      simp only [sendMqttCommand, hf, Bool.false_eq_true, if_false, hn, Option.map_none]
      simp [truthy]

/-- C9 witness: the routing theorem applied to a registry holding door1 at
the target IP, its hostname hypothesis discharged by evaluation. -/
theorem C9_command_routing_witness :
    (∀ e ∈ [("door1", (⟨"10.0.0.5", 0, "online"⟩ : ConnInfo))], e.1 ≠ "") ∧
    ((sendMqttCommand [("door1", ⟨"10.0.0.5", 0, "online"⟩)] "/esprfid" "10.0.0.5"
        { cmd := "opendoor" } none (PublishResult.returned 0)).command.doorip =
      some "10.0.0.5" ∧
     (∀ h, (none : Option String) = some h → h ≠ "" →
       (sendMqttCommand [("door1", ⟨"10.0.0.5", 0, "online"⟩)] "/esprfid" "10.0.0.5"
         { cmd := "opendoor" } none (PublishResult.returned 0)).topic =
         "/esprfid" ++ "/" ++ h ++ "/cmd") ∧
     (truthy none = false →
       ((∃ e ∈ [("door1", (⟨"10.0.0.5", 0, "online"⟩ : ConnInfo))],
           e.2.ip_address = "10.0.0.5") →
         ∃ e ∈ [("door1", (⟨"10.0.0.5", 0, "online"⟩ : ConnInfo))],
           e.2.ip_address = "10.0.0.5" ∧
           (sendMqttCommand [("door1", ⟨"10.0.0.5", 0, "online"⟩)] "/esprfid" "10.0.0.5"
             { cmd := "opendoor" } none (PublishResult.returned 0)).topic =
             "/esprfid" ++ "/" ++ e.1 ++ "/cmd") ∧
       ((∀ e ∈ [("door1", (⟨"10.0.0.5", 0, "online"⟩ : ConnInfo))],
           e.2.ip_address ≠ "10.0.0.5") →
         (sendMqttCommand [("door1", ⟨"10.0.0.5", 0, "online"⟩)] "/esprfid" "10.0.0.5"
           { cmd := "opendoor" } none (PublishResult.returned 0)).topic =
           "/esprfid" ++ "/cmd"))) :=
  ⟨by decide,
   C9_command_routing [("door1", ⟨"10.0.0.5", 0, "online"⟩)] "/esprfid" "10.0.0.5"
     { cmd := "opendoor" } none (PublishResult.returned 0) (by decide)⟩

end ESPRFID
